import Mathlib

/-!
Verification development for the raaghava.net single-page museum site.

The file shallowly embeds the parts of the JavaScript source that the
verified properties talk about:

* the client-side search system (index building, additive scoring,
  result sorting, keyboard navigation of the result list),
* the hash router (static route table, controller dispatch, parent
  hierarchy, view-transition classes),
* the global keyboard shortcut handler.

JavaScript strings are embedded as Lean `String`; the handful of string
primitives the code uses (`toLowerCase`, `trim`, `includes`,
`startsWith`, `split`) are defined here over the character list of a
string so that all definitions evaluate inside the kernel.
-/

/-! ### String primitives (JS `toLowerCase`, `trim`, `includes`, `startsWith`, `split`) -/

/-- ASCII lower-casing of a single character, as JS `toLowerCase` acts on
the ASCII range used by this site. -/
def lowerChar (c : Char) : Char :=
  if 'A' ≤ c ∧ c ≤ 'Z' then Char.ofNat (c.toNat + 32) else c

/-- JS `String.prototype.toLowerCase` on the ASCII range. -/
def lowerStr (s : String) : String :=
  ⟨s.data.map lowerChar⟩

/-- Whitespace recognised by JS `trim` (the characters that occur in this
code base). -/
def isSpaceChar (c : Char) : Bool :=
  c == ' ' || c == '\t' || c == '\n' || c == '\r'

/-- JS `String.prototype.trim`. -/
def trimStr (s : String) : String :=
  ⟨((s.data.dropWhile isSpaceChar).reverse.dropWhile isSpaceChar).reverse⟩

/-- Contiguous-substring test on character lists. -/
def charsInfixOf (needle : List Char) : List Char → Bool
  | [] => needle.isEmpty
  | c :: rest => needle.isPrefixOf (c :: rest) || charsInfixOf needle rest

/-- JS `hay.toLowerCase().includes(needle)`. -/
def strContainsLC (hay needle : String) : Bool :=
  charsInfixOf needle.data (lowerStr hay).data

/-- JS `String.prototype.startsWith`. -/
def strStartsWith (hay pre : String) : Bool :=
  pre.data.isPrefixOf hay.data

/-- JS string split at each slash, on character lists. -/
def splitSlash : List Char → List (List Char)
  | [] => [[]]
  | c :: rest =>
    let r := splitSlash rest
    if c = '/' then [] :: r
    else
      match r with
      | [] => [[c]]
      | g :: gs => (c :: g) :: gs

/-- Number of slash-separated segments of a route, the depth measure the
router derives from the length of the split route. -/
def routeDepth (route : String) : Nat :=
  (splitSlash route.data).length

/-- Segment i of the slash-split route, with the empty string for a missing index
(only used at indices guarded by a `startsWith` check in the source). -/
def splitSeg (route : String) (i : Nat) : String :=
  ⟨(splitSlash route.data).getD i []⟩

/-! ### Search system data model (search.js `SearchSystem`) -/

/-- One entry of `SearchSystem.searchIndex` as pushed by
`buildSearchIndex`.  Fields a given content type does not set are `none`,
matching the absent JS object properties that the scorer tests for
truthiness. -/
structure SearchIndexEntry where
  type : String
  id : String
  title : String
  description : String
  author : Option String := none
  director : Option String := none
  creator : Option String := none
  artist : Option String := none
  location : Option String := none
  tags : List String
  contentType : String
  route : String
deriving DecidableEq

/-- A scored entry, JS `{ ...item, score }`. -/
structure SearchResult where
  entry : SearchIndexEntry
  score : Nat
deriving DecidableEq

/-- JS truthiness-guarded field match
`item.f && item.f.toLowerCase().includes(q)`: an absent field or the
empty string (both falsy) never matches. -/
def optFieldMatch (f : Option String) (nq : String) : Bool :=
  match f with
  | none => false
  | some s => !(s == "") && strContainsLC s nq

/-- The additive score accumulation of `SearchSystem.search`, in the
exact order the source applies the weight increments (title 10,
description 5, author 7, director 7, creator 7, location 6, one
`forEach` pass adding 8 per matching tag, content type 3). -/
def scoreEntry (item : SearchIndexEntry) (nq : String) : Nat :=
  let score : Nat := 0
  let score := if strContainsLC item.title nq then score + 10 else score
  let score := if strContainsLC item.description nq then score + 5 else score
  let score := if optFieldMatch item.author nq then score + 7 else score
  let score := if optFieldMatch item.director nq then score + 7 else score
  let score := if optFieldMatch item.creator nq then score + 7 else score
  let score := if optFieldMatch item.location nq then score + 6 else score
  let score := item.tags.foldl (fun acc tag => if strContainsLC tag nq then acc + 8 else acc) score
  if strContainsLC item.contentType nq then score + 3 else score

/-- The normalization `query.toLowerCase().trim()` from `SearchSystem.search`. -/
def normalizeQuery (q : String) : String :=
  trimStr (lowerStr q)

/-- The pre-sort result list: the index is scanned in order and each
entry with positive score is pushed. -/
def scoredResults (index : List SearchIndexEntry) (nq : String) : List SearchResult :=
  index.filterMap fun e =>
    if 0 < scoreEntry e nq then some ⟨e, scoreEntry e nq⟩ else none

/-- The comparator `(a, b) => b.score - a.score` of the final
`results.sort`: `a` may stay before `b` exactly when `b.score ≤ a.score`. -/
def byScoreDesc (a b : SearchResult) : Prop :=
  b.score ≤ a.score

instance : DecidableRel byScoreDesc :=
  fun a b => inferInstanceAs (Decidable (b.score ≤ a.score))

instance : IsTotal SearchResult byScoreDesc :=
  ⟨fun a b => Nat.le_total b.score a.score⟩

instance : IsTrans SearchResult byScoreDesc :=
  ⟨fun _ _ _ hab hbc => Nat.le_trans hbc hab⟩

/-- Embeds `SearchSystem.search`: empty / whitespace-only queries return `[]`;
otherwise the scored entries are collected in index order and stably
sorted by descending score (ECMAScript `Array.prototype.sort` is
stable, so the stable insertion sort embeds it faithfully). -/
def search (index : List SearchIndexEntry) (query : String) : List SearchResult :=
  if trimStr query = "" then []
  else List.insertionSort byScoreDesc (scoredResults index (normalizeQuery query))

/-- The entry of the C3 example: title "Night Walk", description
"a street photo", tags urban and night. -/
def nightWalkEntry : SearchIndexEntry :=
  { type := "photo", id := "p1", title := "Night Walk",
    description := "a street photo", tags := ["urban", "night"],
    contentType := "Personal Photography", route := "/photography/street" }

/-! ### Helper lemmas about the search pipeline -/

theorem foldl_tag_score (nq : String) (ts : List String) (n : Nat) :
    ts.foldl (fun acc tag => if strContainsLC tag nq then acc + 8 else acc) n
      = n + 8 * (ts.filter (fun tag => strContainsLC tag nq)).length := by
  induction ts generalizing n with
  | nil => simp
  | cons t ts ih =>
    simp only [List.foldl_cons, List.filter_cons]
    by_cases h : strContainsLC t nq
    · simp only [h, if_pos, ih, List.length_cons]
      omega
    · simp only [h, Bool.false_eq_true, if_false, ih]

theorem mem_search_score {idx : List SearchIndexEntry} {q : String} {r : SearchResult}
    (h : r ∈ search idx q) :
    0 < r.score ∧ scoreEntry r.entry (normalizeQuery q) = r.score ∧ r.entry ∈ idx := by
  unfold search at h
  split at h
  · simp at h
  · have hm : r ∈ scoredResults idx (normalizeQuery q) :=
      (List.perm_insertionSort byScoreDesc _).subset h
    unfold scoredResults at hm
    rw [List.mem_filterMap] at hm
    obtain ⟨e, he, hf⟩ := hm
    split at hf
    · cases hf
      exact ⟨by assumption, rfl, he⟩
    · cases hf

theorem if_add (c : Prop) [Decidable c] (n k : Nat) :
    (if c then n + k else n) = n + (if c then k else 0) := by
  split <;> simp

/-- Claim C3: for every index entry and every non-empty normalized query,
`search` scores the entry as the sum of +10 for a title match, +5 for the
description, +7 each independently for author, director and creator, +6
for location, +8 per matching tag (stacking), and +3 for the content
type label; entries with total 0 are excluded from the result, and the
"Night Walk" example entry scores at least 18 for the query "night". -/
theorem search_score_formula (idx : List SearchIndexEntry) (e : SearchIndexEntry)
    (q : String) (_hq : trimStr q ≠ "") :
    (scoreEntry e (normalizeQuery q) =
      (if strContainsLC e.title (normalizeQuery q) then 10 else 0) +
      (if strContainsLC e.description (normalizeQuery q) then 5 else 0) +
      (if optFieldMatch e.author (normalizeQuery q) then 7 else 0) +
      (if optFieldMatch e.director (normalizeQuery q) then 7 else 0) +
      (if optFieldMatch e.creator (normalizeQuery q) then 7 else 0) +
      (if optFieldMatch e.location (normalizeQuery q) then 6 else 0) +
      8 * (e.tags.filter (fun tag => strContainsLC tag (normalizeQuery q))).length +
      (if strContainsLC e.contentType (normalizeQuery q) then 3 else 0))
    ∧ (scoreEntry e (normalizeQuery q) = 0 → ∀ r ∈ search idx q, r.entry ≠ e)
    ∧ 18 ≤ scoreEntry nightWalkEntry (normalizeQuery "night") := by
  refine ⟨?_, ?_, by decide⟩
  · simp only [scoreEntry, foldl_tag_score]
    simp only [if_add]
    omega
  · intro h0 r hr hre
    obtain ⟨hpos, hsc, _⟩ := mem_search_score hr
    rw [hre, h0] at hsc
    omega

theorem search_score_formula_witness :
    trimStr "night" ≠ ""
    ∧ (scoreEntry nightWalkEntry (normalizeQuery "night") = 0 →
        ∀ r ∈ search [nightWalkEntry] "night", r.entry ≠ nightWalkEntry)
    ∧ 18 ≤ scoreEntry nightWalkEntry (normalizeQuery "night") :=
  ⟨by decide,
   (search_score_formula [nightWalkEntry] nightWalkEntry "night" (by decide)).2.1,
   (search_score_formula [nightWalkEntry] nightWalkEntry "night" (by decide)).2.2⟩

/-- Claim C4: for every non-empty query, every returned result has a
positive score, the result sequence is sorted non-increasingly by score,
and results of equal score keep the relative order of the pre-sort
scored list, which itself scans the index in build order (its entries
form a sublist of the index). -/
theorem search_results_positive_sorted_stable (idx : List SearchIndexEntry)
    (q : String) (hq : trimStr q ≠ "") :
    (∀ r ∈ search idx q, 0 < r.score)
    ∧ List.Sorted byScoreDesc (search idx q)
    ∧ (∀ n : Nat, (search idx q).filter (fun r => r.score == n)
        = (scoredResults idx (normalizeQuery q)).filter (fun r => r.score == n))
    ∧ (((scoredResults idx (normalizeQuery q)).map SearchResult.entry).Sublist idx) := by
  have hsearch : search idx q
      = List.insertionSort byScoreDesc (scoredResults idx (normalizeQuery q)) := by
    unfold search
    rw [if_neg hq]
  refine ⟨fun r hr => (mem_search_score hr).1, ?_, ?_, ?_⟩
  · rw [hsearch]
    exact List.sorted_insertionSort byScoreDesc _
  · intro n
    rw [hsearch]
    have hmemp : ∀ x ∈ (scoredResults idx (normalizeQuery q)).filter
        (fun r => r.score == n), x.score = n := by
      intro x hx
      have hb := (List.mem_filter.mp hx).2
      simpa using hb
    have hpair : ((scoredResults idx (normalizeQuery q)).filter
        (fun r => r.score == n)).Pairwise byScoreDesc := by
      refine List.pairwise_of_forall_mem_list ?_
      intro a ha b hb
      have h1 := hmemp a ha
      have h2 := hmemp b hb
      unfold byScoreDesc
      omega
    have hsub : ((scoredResults idx (normalizeQuery q)).filter (fun r => r.score == n)).Sublist
        (List.insertionSort byScoreDesc (scoredResults idx (normalizeQuery q))) :=
      List.sublist_insertionSort hpair (List.filter_sublist _)
    have hsub2 : ((scoredResults idx (normalizeQuery q)).filter (fun r => r.score == n)).Sublist
        ((List.insertionSort byScoreDesc (scoredResults idx (normalizeQuery q))).filter
            (fun r => r.score == n)) := by
      have h1 := hsub.filter (fun r => r.score == n)
      rwa [List.filter_eq_self.mpr (fun a ha => (List.mem_filter.mp ha).2)] at h1
    have hlen : ((List.insertionSort byScoreDesc
          (scoredResults idx (normalizeQuery q))).filter (fun r => r.score == n)).length
        = ((scoredResults idx (normalizeQuery q)).filter (fun r => r.score == n)).length :=
      ((List.perm_insertionSort byScoreDesc _).filter (fun r => r.score == n)).length_eq
    exact (hsub2.eq_of_length (by omega)).symm
  · clear hsearch
    unfold scoredResults
    induction idx with
    | nil => simp
    | cons e es ih =>
      rw [List.filterMap_cons]
      by_cases h : 0 < scoreEntry e (normalizeQuery q)
      · simp only [if_pos h, List.map_cons]
        exact List.Sublist.cons₂ e ih
      · simp only [if_neg h]
        exact List.Sublist.cons e ih

theorem search_results_positive_sorted_stable_witness :
    trimStr "night" ≠ ""
    ∧ ((∀ r ∈ search [nightWalkEntry] "night", 0 < r.score)
      ∧ List.Sorted byScoreDesc (search [nightWalkEntry] "night")
      ∧ (∀ n : Nat, (search [nightWalkEntry] "night").filter (fun r => r.score == n)
          = (scoredResults [nightWalkEntry] (normalizeQuery "night")).filter
              (fun r => r.score == n))
      ∧ ((((scoredResults [nightWalkEntry]
          (normalizeQuery "night")).map SearchResult.entry)).Sublist [nightWalkEntry])) :=
  ⟨by decide, search_results_positive_sorted_stable [nightWalkEntry] "night" (by decide)⟩

/-! ### Index building (search.js `buildSearchIndex`)

Each controller owns a keyed collection; `Object.values` of that
collection is embedded as a list in object-insertion order.  An absent
controller (or absent collection property) is `none` and contributes no
entries. -/

structure Photo where
  id : String
  title : String
  description : Option String := none
  location : Option String := none
  tags : Option (List String) := none
  collection : String
deriving DecidableEq

structure Writing where
  filename : Option String := none
  title : String
  excerpt : Option String := none
  tags : Option (List String) := none
deriving DecidableEq

structure Track where
  id : String
  title : String
  description : Option String := none
  genres : Option (List String) := none
deriving DecidableEq

structure Project where
  id : String
  title : String
  description : Option String := none
  technologies : Option (List String) := none
deriving DecidableEq

structure CuratedWriting where
  id : String
  title : String
  excerpt : Option String := none
  author : Option String := none
  tags : Option (List String) := none
  collection : String
deriving DecidableEq

structure CinemaItem where
  id : String
  title : String
  excerpt : Option String := none
  director : Option String := none
  genres : Option (List String) := none
  collection : String
deriving DecidableEq

structure CuratedMusicItem where
  id : String
  title : String
  excerpt : Option String := none
  artist : Option String := none
  genres : Option (List String) := none
  collection : String
deriving DecidableEq

structure MiscItem where
  id : String
  title : String
  excerpt : Option String := none
  creator : Option String := none
  tags : Option (List String) := none
  collection : String
deriving DecidableEq

/-- Personal photography entry (type `photo`). -/
def photoEntry (p : Photo) : SearchIndexEntry :=
  { type := "photo", id := p.id, title := p.title,
    description := p.description.getD "",
    location := some (p.location.getD ""),
    tags := p.tags.getD [],
    contentType := "Personal Photography",
    route := "/photography/" ++ p.collection }

/-- Personal writing entry (type `writing`); the id is
`writing.filename || writing.title` with JS falsiness on the empty
string. -/
def writingEntry (w : Writing) : SearchIndexEntry :=
  { type := "writing",
    id := match w.filename with
          | some f => if f = "" then w.title else f
          | none => w.title,
    title := w.title,
    description := w.excerpt.getD "",
    tags := w.tags.getD [],
    contentType := "Personal Writings",
    route := "/works/personal/writings" }

/-- Personal music entry (type `music`). -/
def trackEntry (t : Track) : SearchIndexEntry :=
  { type := "music", id := t.id, title := t.title,
    description := t.description.getD "",
    tags := t.genres.getD [],
    contentType := "Personal Music",
    route := "/works/personal/music" }

/-- Personal project entry (type `project`). -/
def projectEntry (p : Project) : SearchIndexEntry :=
  { type := "project", id := p.id, title := p.title,
    description := p.description.getD "",
    tags := p.technologies.getD [],
    contentType := "Personal Projects",
    route := "/works/personal/projects" }

/-- Curated writing entry (type `curated_writing`). -/
def curatedWritingEntry (w : CuratedWriting) : SearchIndexEntry :=
  { type := "curated_writing", id := w.id, title := w.title,
    description := w.excerpt.getD "",
    author := some (w.author.getD ""),
    tags := w.tags.getD [],
    contentType := "Curated Writings",
    route := "/works/curated/writings/" ++ w.collection }

/-- Curated cinema entry (type `curated_cinema`). -/
def cinemaEntry (i : CinemaItem) : SearchIndexEntry :=
  { type := "curated_cinema", id := i.id, title := i.title,
    description := i.excerpt.getD "",
    director := some (i.director.getD ""),
    tags := i.genres.getD [],
    contentType := "Curated Cinema",
    route := "/works/curated/cinema/" ++ i.collection }

/-- Curated music entry (type `curated_music`): the performer is
stored under the `artist` key, not `author`, `director` or `creator`. -/
def curatedMusicEntry (i : CuratedMusicItem) : SearchIndexEntry :=
  { type := "curated_music", id := i.id, title := i.title,
    description := i.excerpt.getD "",
    artist := some (i.artist.getD ""),
    tags := i.genres.getD [],
    contentType := "Curated Music",
    route := "/works/curated/music/" ++ i.collection }

/-- Curated misc entry (type `curated_misc`). -/
def miscEntry (i : MiscItem) : SearchIndexEntry :=
  { type := "curated_misc", id := i.id, title := i.title,
    description := i.excerpt.getD "",
    creator := some (i.creator.getD ""),
    tags := i.tags.getD [],
    contentType := "Curated Content",
    route := "/works/curated/misc/" ++ i.collection }

/-- The collections reachable through `window.*Controller` at
index-building time. -/
structure ControllersState where
  photographyPhotos : Option (List Photo)
  writingsList : Option (List Writing)
  musicTracks : Option (List Track)
  projectsList : Option (List Project)
  curatedWritingsList : Option (List CuratedWriting)
  curatedCinemaList : Option (List CinemaItem)
  curatedMusicList : Option (List CuratedMusicItem)
  curatedMiscList : Option (List MiscItem)

/-- Mutable state of the `SearchSystem` singleton relevant to indexing. -/
structure SearchState where
  searchIndex : List SearchIndexEntry
  isIndexed : Bool

/-- Entries contributed by one controller collection (nothing when the
controller or its collection is absent). -/
def entriesFrom {α : Type} (src : Option (List α)) (f : α → SearchIndexEntry) :
    List SearchIndexEntry :=
  match src with
  | none => []
  | some xs => xs.map f

/-- Embeds `SearchSystem.buildSearchIndex`: resets `searchIndex` to `[]` and
pushes the entries of the eight controllers in the fixed source order
photo, writing, music, project, curated writing, curated cinema,
curated music, curated misc; finally sets `isIndexed`. -/
def buildSearchIndex (_prev : SearchState) (cs : ControllersState) : SearchState :=
  { searchIndex :=
      entriesFrom cs.photographyPhotos photoEntry
      ++ entriesFrom cs.writingsList writingEntry
      ++ entriesFrom cs.musicTracks trackEntry
      ++ entriesFrom cs.projectsList projectEntry
      ++ entriesFrom cs.curatedWritingsList curatedWritingEntry
      ++ entriesFrom cs.curatedCinemaList cinemaEntry
      ++ entriesFrom cs.curatedMusicList curatedMusicEntry
      ++ entriesFrom cs.curatedMiscList miscEntry,
    isIndexed := true }

/-- Claim C6: `buildSearchIndex` is idempotent — run twice over unchanged
controller collections, the second index has the same length and the
same ordered (type, id) pairs as the first, and the index is laid out in
the fixed controller iteration order photo, writing, music, project,
curated writing, curated cinema, curated music, curated misc. -/
theorem buildSearchIndex_idempotent (s : SearchState) (cs : ControllersState) :
    ((buildSearchIndex (buildSearchIndex s cs) cs).searchIndex.length
        = (buildSearchIndex s cs).searchIndex.length)
    ∧ ((buildSearchIndex (buildSearchIndex s cs) cs).searchIndex.map
          (fun e => (e.type, e.id))
        = (buildSearchIndex s cs).searchIndex.map (fun e => (e.type, e.id)))
    ∧ ((buildSearchIndex s cs).searchIndex
        = entriesFrom cs.photographyPhotos photoEntry
          ++ entriesFrom cs.writingsList writingEntry
          ++ entriesFrom cs.musicTracks trackEntry
          ++ entriesFrom cs.projectsList projectEntry
          ++ entriesFrom cs.curatedWritingsList curatedWritingEntry
          ++ entriesFrom cs.curatedCinemaList cinemaEntry
          ++ entriesFrom cs.curatedMusicList curatedMusicEntry
          ++ entriesFrom cs.curatedMiscList miscEntry) :=
  ⟨rfl, rfl, rfl⟩

/-- Claim C10: the scorer never reads the `artist` field, so a curated
music entry whose artist matches the query — while title, description,
tags and content type label do not — scores 0 and is excluded from every
result list. -/
theorem curated_music_artist_never_scores (idx : List SearchIndexEntry)
    (m : CuratedMusicItem) (q : String)
    (_hartist : optFieldMatch (curatedMusicEntry m).artist (normalizeQuery q) = true)
    (htitle : strContainsLC (curatedMusicEntry m).title (normalizeQuery q) = false)
    (hdesc : strContainsLC (curatedMusicEntry m).description (normalizeQuery q) = false)
    (htags : ∀ t ∈ (curatedMusicEntry m).tags, strContainsLC t (normalizeQuery q) = false)
    (hct : strContainsLC (curatedMusicEntry m).contentType (normalizeQuery q) = false) :
    scoreEntry (curatedMusicEntry m) (normalizeQuery q) = 0
    ∧ ∀ r ∈ search idx q, r.entry ≠ curatedMusicEntry m := by
  have hscore : scoreEntry (curatedMusicEntry m) (normalizeQuery q) = 0 := by
    simp only [scoreEntry, curatedMusicEntry, foldl_tag_score] at *
    rw [List.filter_eq_nil_iff.mpr ?_]
    · simp only [htitle, hdesc, hct, Bool.false_eq_true, if_false,
        optFieldMatch, List.length_nil]
    · intro t ht
      simp only [htags t ht, Bool.false_eq_true, not_false_eq_true]
  refine ⟨hscore, ?_⟩
  intro r hr hre
  obtain ⟨hpos, hsc, _⟩ := mem_search_score hr
  rw [hre, hscore] at hsc
  omega

theorem curated_music_artist_never_scores_witness :
    (optFieldMatch (curatedMusicEntry
        { id := "cm1", title := "OK Computer", excerpt := some "",
          artist := some "Radiohead", genres := some ["rock"],
          collection := "albums" }).artist (normalizeQuery "radiohead") = true)
    ∧ (scoreEntry (curatedMusicEntry
        { id := "cm1", title := "OK Computer", excerpt := some "",
          artist := some "Radiohead", genres := some ["rock"],
          collection := "albums" }) (normalizeQuery "radiohead") = 0
      ∧ ∀ r ∈ search [curatedMusicEntry
          { id := "cm1", title := "OK Computer", excerpt := some "",
            artist := some "Radiohead", genres := some ["rock"],
            collection := "albums" }] "radiohead",
          r.entry ≠ curatedMusicEntry
            { id := "cm1", title := "OK Computer", excerpt := some "",
              artist := some "Radiohead", genres := some ["rock"],
              collection := "albums" }) :=
  ⟨by decide,
   curated_music_artist_never_scores _ _ "radiohead"
     (by decide) (by decide) (by decide) (by decide) (by decide)⟩

/-! ### Search surface keyboard handling (search.js + app.js)

`SearchUIState` carries the `SearchSystem` fields the handlers mutate.
The selected index is an `Int`, as JS arithmetic can produce `-1`
before the `Math.max` clamp.  DOM-only effects (overlay CSS classes,
rendering, scrolling) have no state here; `isSearchOpen` stands for the
overlay being shown. -/

structure SearchUIState where
  isSearchOpen : Bool
  currentResults : List SearchResult
  selectedResultIndex : Int
deriving DecidableEq

/-- Embeds `SearchSystem.closeSearch` (overlay hiding is DOM-only). -/
def closeSearch (s : SearchUIState) : SearchUIState :=
  { s with isSearchOpen := false }

/-- Embeds `SearchSystem.openSearch`: shows the overlay, clears the input and
the previous results, resets the selection. -/
def openSearch (s : SearchUIState) : SearchUIState :=
  { s with isSearchOpen := true, currentResults := [], selectedResultIndex := 0 }

/-- Embeds `SearchSystem.selectResult`: a missing result (index out of range)
returns immediately; otherwise it navigates to the result route and
closes the search. -/
def selectResult (s : SearchUIState) (index : Int) : SearchUIState :=
  if 0 ≤ index ∧ index < (s.currentResults.length : Int) then closeSearch s else s

/-- Embeds `SearchSystem.handleKeyboardNavigation`, the keydown listener on the
search input: it returns before any key handling when the current result
list is empty; ArrowDown and ArrowUp clamp the selection with
`Math.min` / `Math.max`, Enter activates the selection, Escape closes. -/
def handleKeyboardNavigation (s : SearchUIState) (key : String) : SearchUIState :=
  if s.currentResults.length = 0 then s
  else if key = "ArrowDown" then
    { s with
      selectedResultIndex := min (s.selectedResultIndex + 1) ((s.currentResults.length : Int) - 1) }
  else if key = "ArrowUp" then
    { s with selectedResultIndex := max (s.selectedResultIndex - 1) 0 }
  else if key = "Enter" then selectResult s s.selectedResultIndex
  else if key = "Escape" then closeSearch s
  else s

/-- The document-level keydown listener from `app.js`
`setupKeyboardShortcuts`, restricted to its effect on the search state:
it returns immediately for events targeting an INPUT or TEXTAREA; while
the search is open only a (lower-cased) escape key acts, closing the
search; while it is closed, `/` opens the search, and the remaining
shortcuts (sitemap, theme, router and gallery keys) do not touch the
search state. -/
def globalKeydown (s : SearchUIState) (targetIsInput : Bool) (key : String) :
    SearchUIState :=
  if targetIsInput then s
  else if s.isSearchOpen then
    if lowerStr key = "escape" then closeSearch s else s
  else if lowerStr key = "/" then openSearch s
  else s

/-- A keydown while the search input has focus: the input listener
(`handleKeyboardNavigation`) runs first, then the event bubbles to the
document listener, which sees an INPUT target. -/
def keydownOnSearchInput (s : SearchUIState) (key : String) : SearchUIState :=
  globalKeydown (handleKeyboardNavigation s key) true key

/-- Claim C5 (divergence witness): with the search surface open, the
result list empty and focus in the search input — the state
`openSearch` itself produces — pressing Escape leaves the search open:
the input listener returns before its Escape case because
`currentResults.length === 0`, and the document listener ignores INPUT
targets.  The claim that Escape closes the search in every search state
fails here. -/
theorem escape_empty_results_leaves_search_open :
    (keydownOnSearchInput
        { isSearchOpen := true, currentResults := [], selectedResultIndex := 0 }
        "Escape").isSearchOpen = true
    ∧ (keydownOnSearchInput
        { isSearchOpen := true, currentResults := [], selectedResultIndex := 0 }
        "Escape")
      = { isSearchOpen := true, currentResults := [], selectedResultIndex := 0 } := by
  exact ⟨rfl, rfl⟩

/-- Claim C9: with a non-empty result list and a selection inside
`[0, len-1]`, ArrowDown moves the selection to `min (i+1) (len-1)` and
ArrowUp to `max (i-1) 0`, so the selection never leaves `[0, len-1]`. -/
theorem keyboard_nav_clamps_selection (s : SearchUIState)
    (hlen : 0 < s.currentResults.length)
    (h0 : 0 ≤ s.selectedResultIndex)
    (h1 : s.selectedResultIndex ≤ (s.currentResults.length : Int) - 1) :
    ((handleKeyboardNavigation s "ArrowDown").selectedResultIndex
        = min (s.selectedResultIndex + 1) ((s.currentResults.length : Int) - 1))
    ∧ ((handleKeyboardNavigation s "ArrowUp").selectedResultIndex
        = max (s.selectedResultIndex - 1) 0)
    ∧ 0 ≤ (handleKeyboardNavigation s "ArrowDown").selectedResultIndex
    ∧ (handleKeyboardNavigation s "ArrowDown").selectedResultIndex
        ≤ (s.currentResults.length : Int) - 1
    ∧ 0 ≤ (handleKeyboardNavigation s "ArrowUp").selectedResultIndex
    ∧ (handleKeyboardNavigation s "ArrowUp").selectedResultIndex
        ≤ (s.currentResults.length : Int) - 1 := by
  have hdown : handleKeyboardNavigation s "ArrowDown"
      = { s with
          selectedResultIndex := min (s.selectedResultIndex + 1) ((s.currentResults.length : Int) - 1) } := by
    unfold handleKeyboardNavigation
    rw [if_neg (by omega), if_pos rfl]
  have hup : handleKeyboardNavigation s "ArrowUp"
      = { s with selectedResultIndex := max (s.selectedResultIndex - 1) 0 } := by
    unfold handleKeyboardNavigation
    rw [if_neg (by omega), if_neg (by decide), if_pos rfl]
  rw [hdown, hup]
  dsimp only
  refine ⟨rfl, rfl, ?_, ?_, ?_, ?_⟩ <;> omega

theorem keyboard_nav_clamps_selection_witness :
    (0 < (SearchUIState.mk true [⟨nightWalkEntry, 18⟩] 0).currentResults.length)
    ∧ (((handleKeyboardNavigation (SearchUIState.mk true [⟨nightWalkEntry, 18⟩] 0)
          "ArrowDown").selectedResultIndex
        = min ((0 : Int) + 1)
            (((SearchUIState.mk true [⟨nightWalkEntry, 18⟩] 0).currentResults.length : Int) - 1))
      ∧ ((handleKeyboardNavigation (SearchUIState.mk true [⟨nightWalkEntry, 18⟩] 0)
          "ArrowUp").selectedResultIndex = max ((0 : Int) - 1) 0)
      ∧ 0 ≤ (handleKeyboardNavigation (SearchUIState.mk true [⟨nightWalkEntry, 18⟩] 0)
          "ArrowDown").selectedResultIndex
      ∧ (handleKeyboardNavigation (SearchUIState.mk true [⟨nightWalkEntry, 18⟩] 0)
          "ArrowDown").selectedResultIndex
        ≤ (((SearchUIState.mk true [⟨nightWalkEntry, 18⟩] 0).currentResults.length : Int) - 1)
      ∧ 0 ≤ (handleKeyboardNavigation (SearchUIState.mk true [⟨nightWalkEntry, 18⟩] 0)
          "ArrowUp").selectedResultIndex
      ∧ (handleKeyboardNavigation (SearchUIState.mk true [⟨nightWalkEntry, 18⟩] 0)
          "ArrowUp").selectedResultIndex
        ≤ (((SearchUIState.mk true [⟨nightWalkEntry, 18⟩] 0).currentResults.length : Int) - 1)) :=
  ⟨by decide,
   keyboard_nav_clamps_selection (SearchUIState.mk true [⟨nightWalkEntry, 18⟩] 0)
     (by decide) (by decide) (by decide)⟩

/-! ### Router (router.js `Router`) -/

/-- The content controllers the router can dispatch to. -/
inductive ControllerId
  | about
  | photography
  | writings
  | music
  | projects
  | curatedWritings
  | curatedCinema
  | curatedMusic
  | curatedMisc
deriving DecidableEq

/-- What `renderRoute` needs from one entry of the static `routes`
table: the page title, the `backWall.type` string when a back wall is
declared, and whether the route uses the four-walls layout. -/
structure RouteConfig where
  title : String
  backWallType : Option String := none
  fourWalls : Bool := false
deriving DecidableEq

/-- The static route table `Router.routes`, in source order. -/
def routesTable : List (String × RouteConfig) :=
  [("", { title := "Personal Museum", backWallType := some "photo-space" }),
   ("/about", { title := "About - Personal Museum", backWallType := some "placeholder" }),
   ("/works", { title := "Works - Personal Museum", backWallType := some "section-title" }),
   ("/works/personal", { title := "Personal Works - Museum", fourWalls := true }),
   ("/works/personal/writings",
     { title := "Personal Writings - Museum", backWallType := some "placeholder" }),
   ("/works/personal/photography",
     { title := "Photography - Museum", backWallType := some "placeholder" }),
   ("/works/curated", { title := "Curated Works - Museum", fourWalls := true }),
   ("/works/curated/writings",
     { title := "Curated Writings - Museum", backWallType := some "placeholder" }),
   ("/works/curated/cinema",
     { title := "Cinema & TV - Museum", backWallType := some "placeholder" }),
   ("/works/curated/music",
     { title := "Curated Music - Museum", backWallType := some "placeholder" }),
   ("/works/curated/misc",
     { title := "Miscellaneous - Museum", backWallType := some "placeholder" }),
   ("/works/personal/music",
     { title := "Personal Music - Museum", backWallType := some "placeholder" }),
   ("/works/personal/projects",
     { title := "Projects - Museum", backWallType := some "placeholder" })]

/-- JS `this.routes[route]`. -/
def lookupRoute (route : String) : Option RouteConfig :=
  List.lookup route routesTable

/-- Mutable router state: current and previous route, the in-memory
navigation history, the wall clicked for the last navigation, and the
document title. -/
structure RouterState where
  currentRoute : String
  previousRoute : String
  navigationHistory : List String
  lastClickedWall : Option String
  pageTitle : String
deriving DecidableEq

/-- How `renderRoute` resolves: the 404 panel, delegation to a
controller (with the optional collection id passed to its `render`), or
the static wall rendering of the route table entry. -/
inductive RenderOutcome
  | notFound
  | controllerRender (c : ControllerId) (collectionId : Option String)
  | staticWalls (route : String)
deriving DecidableEq

/-- Embeds `Router.handleControllerRoute`, translated branch by branch in
source order.  `present c` embeds the `window.XController` truthiness
guard of each branch; a branch whose controller is absent falls through
exactly as in the source. -/
def handleControllerRoute (present : ControllerId → Bool) (route : String) :
    Option (ControllerId × Option String) :=
  if route = "/about" ∧ present .about then some (.about, none)
  else if route = "/works/personal/photography" ∧ present .photography then
    some (.photography, none)
  else if strStartsWith route "/photography/" ∧ present .photography then
    some (.photography, some (splitSeg route 2))
  else if route = "/works/personal/writings" ∧ present .writings then some (.writings, none)
  else if route = "/works/personal/music" ∧ present .music then some (.music, none)
  else if route = "/works/personal/projects" ∧ present .projects then some (.projects, none)
  else if route = "/works/curated/writings" ∧ present .curatedWritings then
    some (.curatedWritings, none)
  else if strStartsWith route "/works/curated/writings/" ∧ present .curatedWritings then
    some (.curatedWritings, some (splitSeg route 4))
  else if route = "/works/curated/cinema" ∧ present .curatedCinema then
    some (.curatedCinema, none)
  else if strStartsWith route "/works/curated/cinema/" ∧ present .curatedCinema then
    some (.curatedCinema, some (splitSeg route 4))
  else if route = "/works/curated/music" ∧ present .curatedMusic then
    some (.curatedMusic, none)
  else if strStartsWith route "/works/curated/music/" ∧ present .curatedMusic then
    some (.curatedMusic, some (splitSeg route 4))
  else if route = "/works/curated/misc" ∧ present .curatedMisc then
    some (.curatedMisc, none)
  else if strStartsWith route "/works/curated/misc/" ∧ present .curatedMisc then
    some (.curatedMisc, some (splitSeg route 4))
  else none

/-- Embeds `Router.renderRoute`: the static table is consulted first and a
missing entry short-circuits to the 404 panel (`show404`) before the
controller dispatch is ever reached; for a present entry the controller
check runs next and wins, otherwise the static walls are rendered. -/
def renderRoute (present : ControllerId → Bool) (route : String) : RenderOutcome :=
  match lookupRoute route with
  | none => .notFound
  | some _ =>
    match handleControllerRoute present route with
    | some (c, cid) => .controllerRender c cid
    | none => .staticWalls route

/-- Embeds `Router.navigateTo` (browser-history side effects are external):
rotates previous/current route, records the clicked wall, pushes onto
the in-memory history, updates the title when the route table has an
entry, and triggers `renderRoute`. -/
def navigateTo (present : ControllerId → Bool) (s : RouterState) (route : String)
    (clickedWall : Option String) : RouterState × RenderOutcome :=
  ({ currentRoute := route,
     previousRoute := s.currentRoute,
     navigationHistory := s.navigationHistory ++ [route],
     lastClickedWall := clickedWall,
     pageTitle := match lookupRoute route with
                  | some cfg => cfg.title
                  | none => s.pageTitle },
   renderRoute present route)

/-- Embeds `Router.isForwardNavigation`: an empty (falsy) previous or current
route is never forward; otherwise forward means strictly more
slash-separated segments. -/
def isForwardNavigation (s : RouterState) : Bool :=
  if s.previousRoute = "" ∨ s.currentRoute = "" then false
  else decide (routeDepth s.previousRoute < routeDepth s.currentRoute)

/-- Embeds `Router.isLeafRoute`: the current route has a table entry whose
back wall exists and is not empty, section-title or photo-space. -/
def isLeafRoute (s : RouterState) : Bool :=
  match lookupRoute s.currentRoute with
  | none => false
  | some cfg =>
    match cfg.backWallType with
    | none => false
    | some t => !(t == "empty" || t == "section-title" || t == "photo-space")

/-- Embeds `Router.getViewClass`: forward navigation wins, then the side-wall
perspective views (excluded on the about route), else the empty class. -/
def getViewClass (s : RouterState) : String :=
  if isForwardNavigation s then "move-forward"
  else if s.currentRoute ≠ "/about" ∧ s.lastClickedWall = some "left" ∧ isLeafRoute s then
    "view-left"
  else if s.currentRoute ≠ "/about" ∧ s.lastClickedWall = some "right" ∧ isLeafRoute s then
    "view-right"
  else ""

/-- The static parent map of `Router.getParentRoute` with its
home-route guard and its lookup-or-home fallback. -/
def getParentRoute (currentRoute : String) : String :=
  if currentRoute = "" then ""
  else
    match List.lookup currentRoute
      [("/about", ""), ("/works", ""),
       ("/works/personal", "/works"), ("/works/curated", "/works"),
       ("/works/personal/photography", "/works/personal"),
       ("/works/personal/writings", "/works/personal"),
       ("/works/personal/music", "/works/personal"),
       ("/works/personal/projects", "/works/personal"),
       ("/works/curated/writings", "/works/curated"),
       ("/works/curated/cinema", "/works/curated"),
       ("/works/curated/music", "/works/curated"),
       ("/works/curated/misc", "/works/curated")] with
    | some p => p
    | none => ""

/-- Embeds `Router.goBack`: navigate to the statically declared parent of the
current route (no wall recorded). -/
def goBack (present : ControllerId → Bool) (s : RouterState) :
    RouterState × RenderOutcome :=
  navigateTo present s (getParentRoute s.currentRoute) none

/-- A router state sitting at `r` with no pending transition data. -/
def routerStateAt (r : String) : RouterState :=
  { currentRoute := r, previousRoute := "", navigationHistory := [],
    lastClickedWall := none, pageTitle := "" }

/-- The five dynamic controller-route prefixes of
`handleControllerRoute`. -/
def dynControllerMatch (route : String) : Bool :=
  strStartsWith route "/photography/"
  || strStartsWith route "/works/curated/writings/"
  || strStartsWith route "/works/curated/cinema/"
  || strStartsWith route "/works/curated/music/"
  || strStartsWith route "/works/curated/misc/"

theorem isForwardNavigation_iff (s : RouterState) :
    isForwardNavigation s = true ↔
      (s.previousRoute ≠ "" ∧ s.currentRoute ≠ ""
        ∧ routeDepth s.previousRoute < routeDepth s.currentRoute) := by
  unfold isForwardNavigation
  by_cases h1 : s.previousRoute = "" <;> by_cases h2 : s.currentRoute = "" <;>
    simp [h1, h2]

theorem getViewClass_eq_forward_iff (s : RouterState) :
    getViewClass s = "move-forward" ↔ isForwardNavigation s = true := by
  unfold getViewClass
  by_cases h : isForwardNavigation s = true
  · simp [h]
  · rw [if_neg h]
    constructor
    · intro hcl
      split_ifs at hcl <;> exact absurd hcl (by decide)
    · intro hf
      exact absurd hf h

/-- Claim C1 (code divergence): `renderRoute` consults the static route
table before the controller dispatch, so the dynamic collection route
`/photography/street` — which has no table entry but which
`handleControllerRoute` would delegate to the photography controller
with collection id `street` — is rendered as NotFound, while the exact
controller route `/works/personal/photography` (which has a table
entry) is delegated.  This refutes the claim that dynamic
controller-pattern routes bypass the static table and are never
rendered as NotFound. -/
theorem renderRoute_dynamic_collection_notFound :
    renderRoute (fun _ => true) "/photography/street" = RenderOutcome.notFound
    ∧ handleControllerRoute (fun _ => true) "/photography/street"
        = some (ControllerId.photography, some "street")
    ∧ renderRoute (fun _ => true) "/works/personal/photography"
        = RenderOutcome.controllerRender ControllerId.photography none := by
  decide

/-- Claim C2 (amended): the view class is `move-forward` iff both the
previous and the current route are non-empty (the JS falsiness guard of
`isForwardNavigation`) and the current route has strictly more
slash-separated segments than the previous one.  The original claim
omitted the non-emptiness condition. -/
theorem getViewClass_forward_iff_depth (s : RouterState) :
    getViewClass s = "move-forward" ↔
      (s.previousRoute ≠ "" ∧ s.currentRoute ≠ ""
        ∧ routeDepth s.previousRoute < routeDepth s.currentRoute) :=
  (getViewClass_eq_forward_iff s).trans (isForwardNavigation_iff s)

/-- Claim C2 counterexample: navigating from the home route `""` to
`/works` increases the segment count (1 to 2), yet the view class is not
`move-forward`, because the falsy previous route short-circuits
`isForwardNavigation`.  The depth iff of the claim fails at this pair. -/
theorem getViewClass_home_counterexample :
    ¬ (getViewClass (RouterState.mk "/works" "" [] none "") = "move-forward"
        ↔ routeDepth "" < routeDepth "/works") := by
  decide

/-- Claim C7: `goBack` navigates to the statically declared parent of
the current route: generally `currentRoute` becomes
`getParentRoute currentRoute`; from `/works/curated/music` it lands on
`/works/curated`; from the home route the parent is home itself, so the
route remains `""`. -/
theorem goBack_navigates_to_parent :
    (∀ (present : ControllerId → Bool) (s : RouterState),
      ((goBack present s).1).currentRoute = getParentRoute s.currentRoute)
    ∧ getParentRoute "/works/curated/music" = "/works/curated"
    ∧ getParentRoute "" = ""
    ∧ (∀ present : ControllerId → Bool,
        ((goBack present (routerStateAt "/works/curated/music")).1).currentRoute
          = "/works/curated")
    ∧ (∀ present : ControllerId → Bool,
        ((goBack present (routerStateAt "")).1).currentRoute = "") :=
  ⟨fun _ _ => rfl, by decide, rfl, fun _ => rfl, fun _ => rfl⟩

/-- Claim C8: a route with no static table entry (and matching no
dynamic controller prefix) makes `navigateTo` render the terminal
NotFound outcome — the embedding is total, no exception path exists —
while `currentRoute` is left set to the requested route. -/
theorem navigateTo_unknown_route_notFound (present : ControllerId → Bool)
    (s : RouterState) (route : String)
    (h1 : lookupRoute route = none) (_h2 : dynControllerMatch route = false) :
    (navigateTo present s route none).2 = RenderOutcome.notFound
    ∧ (navigateTo present s route none).1.currentRoute = route := by
  refine ⟨?_, rfl⟩
  show renderRoute present route = RenderOutcome.notFound
  unfold renderRoute
  rw [h1]

theorem navigateTo_unknown_route_notFound_witness :
    (lookupRoute "/bogus" = none ∧ dynControllerMatch "/bogus" = false)
    ∧ ((navigateTo (fun _ => true) (routerStateAt "") "/bogus" none).2
          = RenderOutcome.notFound
      ∧ (navigateTo (fun _ => true) (routerStateAt "") "/bogus" none).1.currentRoute
          = "/bogus") :=
  ⟨by decide,
   navigateTo_unknown_route_notFound (fun _ => true) (routerStateAt "") "/bogus"
     (by decide) (by decide)⟩
